import Mathlib

/-!
Shallow embedding of the BLE GAP connection/advertising manager in
`firmware/targets/f7/bl_igloo/gap.c`.

State-mutating C functions become pure Lean functions from the `Gap` record
(plus external inputs such as the tick counter, the HCI RSSI read result and
the `rand()` value) to an updated `Gap` record paired with the list of
observable side effects (`CtlAction`): controller commands, timer operations,
queue posts, delays and application-event callbacks, in program order.
-/

/-- Modelled from the spec: the `GapState` enum is declared in `gap.h`, which is
not part of the sources; the spec fixes its members and that they are "ordered
numerically such that > Idle means advertising or connected", with the chain
Uninitialized, Idle, StartingAdvertising, AdvertisingFast, AdvertisingLowPower,
Connected. -/
inductive GapState where
  | GapStateUninitialized
  | GapStateIdle
  | GapStateStartingAdv
  | GapStateAdvFast
  | GapStateAdvLowPower
  | GapStateConnected
deriving DecidableEq, Repr

/-- Numeric value of each `GapState` enum member, in declaration order, used to
embed the C comparison `gap->state > GapStateIdle`. -/
def GapState.toNat : GapState → Nat
  | .GapStateUninitialized => 0
  | .GapStateIdle => 1
  | .GapStateStartingAdv => 2
  | .GapStateAdvFast => 3
  | .GapStateAdvLowPower => 4
  | .GapStateConnected => 5

/-- Modelled from the spec: the pairing-method enum from `gap.h` (not in the
sources); its three members are used by name in `gap.c`. -/
inductive GapPairing where
  | GapPairingPinCodeShow
  | GapPairingPinCodeVerifyYesNo
  | GapPairingNone
deriving DecidableEq, Repr

/-- Connection parameters stored in the `Gap` object (`GapConnectionParams`),
written from connection-complete and connection-update-complete events. -/
structure GapConnectionParams where
  conn_interval : Nat
  slave_latency : Nat
  supervisor_timeout : Nat
deriving DecidableEq, Repr

/-- The configured connection-interval acceptance range
(`GapConnectionParamsRequest`, the `conn_param` field of the config). -/
structure GapConnectionParamsRequest where
  conn_int_min : Nat
  conn_int_max : Nat
deriving DecidableEq, Repr

/-- The fields of `GapConfig` that the embedded functions read. -/
structure GapConfig where
  pairing_method : GapPairing
  bonding_mode : Bool
  conn_param : GapConnectionParamsRequest
deriving DecidableEq, Repr

/-- Application events (`GapEventType` with the `data` union), as produced by
`gap.c`: pin codes are 32-bit values, the MTU payload size is the C `int`
result of `Server_RX_MTU - 3`. -/
inductive GapEvent where
  | GapEventTypeStartAdvertising
  | GapEventTypeStopAdvertising
  | GapEventTypeConnected
  | GapEventTypeDisconnected
  | GapEventTypePinCodeShow (pin_code : Nat)
  | GapEventTypePinCodeVerify (pin_code : Nat)
  | GapEventTypeUpdateMTU (max_packet_size : Int)
deriving DecidableEq, Repr

/-- Commands posted to the worker-thread queue (`GapCommand`). -/
inductive GapCommand where
  | GapCommandAdvFast
  | GapCommandAdvLowPower
  | GapCommandAdvStop
  | GapCommandKillThread
deriving DecidableEq, Repr

/-- Observable side effects of the embedded functions, one constructor per
controller/timer/queue/callback call site in `gap.c`, in program order. -/
inductive CtlAction where
  | furry_timer_stop
  | furry_timer_start (ms : Nat)
  | aci_gap_set_discoverable (min_interval : Nat) (max_interval : Nat)
  | aci_gap_set_non_discoverable
  | aci_gap_terminate (handle : Nat) (reason : Nat)
  | aci_l2cap_connection_parameter_update_req
      (handle : Nat) (int_min : Nat) (int_max : Nat)
      (latency : Nat) (timeout : Nat)
  | aci_gap_pass_key_resp (handle : Nat) (pin : Nat)
  | aci_gap_slave_security_req (handle : Nat)
  | aci_gap_allow_rebond (handle : Nat)
  | furry_delay_us (us : Nat)
  | queue_put (c : GapCommand)
  | emit (e : GapEvent)
deriving DecidableEq, Repr

/-- The mutable fields of the global `Gap` object that the embedded functions
touch (connection handle, state, RSSI cache, advertising flag, connection
parameters) together with the immutable config. -/
structure Gap where
  connection_handle : Nat
  state : GapState
  conn_rssi : Int
  time_rssi_sample : Nat
  enable_adv : Bool
  connection_params : GapConnectionParams
  config : GapConfig
deriving DecidableEq, Repr

/-- `INITIAL_ADV_TIMEOUT` from `gap.c` (60 s); the timer is always armed with
this constant. -/
def INITIAL_ADV_TIMEOUT : Nat := 60000

/-- Modulus of the 32-bit tick counter (`furry_get_tick` returns `uint32_t`). -/
def UINT32_MOD : Nat := 4294967296

/-- `fetch_rssi`: on a successful `hci_read_rssi` (modelled as `some r`) store
the RSSI and stamp `time_rssi_sample` with the current tick; on failure only a
log line is produced and nothing changes. -/
def fetch_rssi (g : Gap) (read_result : Option Int) (tick : Nat) : Gap :=
  match read_result with
  | some r => { g with conn_rssi := r, time_rssi_sample := tick }
  | none => g

/-- `gap_verify_connection_parameters`: purely reads the stored parameters and
the configured range; requests an L2CAP parameter update exactly when
`conn_int_min > conn_interval || conn_int_max < conn_interval`. A non-zero
status from the request is only logged, so the function returns no state
change. -/
def gap_verify_connection_parameters (g : Gap) : List CtlAction :=
  if g.config.conn_param.conn_int_min > g.connection_params.conn_interval ∨
      g.config.conn_param.conn_int_max < g.connection_params.conn_interval then
    [CtlAction.aci_l2cap_connection_parameter_update_req
      g.connection_handle
      g.config.conn_param.conn_int_min
      g.config.conn_param.conn_int_max
      g.connection_params.slave_latency
      g.connection_params.supervisor_timeout]
  else []

/-- `gap_advertise_start`: picks fast (0x80..0xa0) or low-power (0x640..0xfa0)
interval bounds from `new_state`, stops the advertising timer, issues
`set_non_discoverable` first when demoting an already-advertising state to low
power, issues `set_discoverable`, sets the state, emits `StartAdvertising` and
re-arms the timer with `INITIAL_ADV_TIMEOUT`. -/
def gap_advertise_start (g : Gap) (new_state : GapState) : Gap × List CtlAction :=
  ({ g with state := new_state },
    [CtlAction.furry_timer_stop] ++
    (if new_state = GapState.GapStateAdvLowPower ∧
        (g.state = GapState.GapStateAdvFast ∨ g.state = GapState.GapStateAdvLowPower) then
      [CtlAction.aci_gap_set_non_discoverable]
    else []) ++
    [CtlAction.aci_gap_set_discoverable
        (if new_state = GapState.GapStateAdvFast then 0x80 else 0x0640)
        (if new_state = GapState.GapStateAdvFast then 0xa0 else 0x0fa0),
      CtlAction.emit GapEvent.GapEventTypeStartAdvertising,
      CtlAction.furry_timer_start INITIAL_ADV_TIMEOUT])

/-- `gap_advertise_stop`: when `state > GapStateIdle`, first terminates the
link (reason 0x13) if connected, then stops the timer, issues
`set_non_discoverable` and sets the state to Idle; in every case — including
when the state was already Idle or below — it then emits `StopAdvertising`
through the callback (the emit sits outside the guard in the C source). -/
def gap_advertise_stop (g : Gap) : Gap × List CtlAction :=
  if GapState.toNat GapState.GapStateIdle < GapState.toNat g.state then
    ({ g with state := GapState.GapStateIdle },
      (if g.state = GapState.GapStateConnected then
        [CtlAction.aci_gap_terminate g.connection_handle 0x13]
      else []) ++
      [CtlAction.furry_timer_stop, CtlAction.aci_gap_set_non_discoverable,
        CtlAction.emit GapEvent.GapEventTypeStopAdvertising])
  else
    (g, [CtlAction.emit GapEvent.GapEventTypeStopAdvertising])

/-- `gap_start_advertising`: only when the state is exactly Idle, move to
StartingAdv, set `enable_adv`, and post `GapCommandAdvFast`; otherwise the
body of the guard is skipped and nothing at all happens. -/
def gap_start_advertising (g : Gap) : Gap × List CtlAction :=
  if g.state = GapState.GapStateIdle then
    ({ g with state := GapState.GapStateStartingAdv, enable_adv := true },
      [CtlAction.queue_put GapCommand.GapCommandAdvFast])
  else (g, [])

/-- `gap_stop_advertising`: only when `state > GapStateIdle`, clear
`enable_adv` and post `GapCommandAdvStop`; otherwise nothing happens. -/
def gap_stop_advertising (g : Gap) : Gap × List CtlAction :=
  if GapState.toNat GapState.GapStateIdle < GapState.toNat g.state then
    ({ g with enable_adv := false }, [CtlAction.queue_put GapCommand.GapCommandAdvStop])
  else (g, [])

/-- `gap_advetise_timer_callback` (name as in the source): posts
`GapCommandAdvLowPower` to the command queue and touches no state. -/
def gap_advetise_timer_callback : List CtlAction :=
  [CtlAction.queue_put GapCommand.GapCommandAdvLowPower]

/-- One iteration of the worker loop `gap_app` after dequeuing `command`
(the mutex bracketing is implicit; `KillThread` breaks the loop without a
transition). -/
def gap_app_step (g : Gap) (command : GapCommand) : Gap × List CtlAction :=
  if command = GapCommand.GapCommandKillThread then (g, [])
  else if command = GapCommand.GapCommandAdvFast then
    gap_advertise_start g GapState.GapStateAdvFast
  else if command = GapCommand.GapCommandAdvLowPower then
    gap_advertise_start g GapState.GapStateAdvLowPower
  else if command = GapCommand.GapCommandAdvStop then
    gap_advertise_stop g
  else (g, [])

/-- The state initialisation performed by `gap_init` once the radio stack is
ready: state Idle, connection handle 0xFFFF, `enable_adv` true, RSSI cache 127
with timestamp 0. The `Gap` object comes from a bare `malloc`, so the
connection-parameter fields are uninitialised memory, passed in here as an
arbitrary `uninit_params`. -/
def gap_init (config : GapConfig) (uninit_params : GapConnectionParams) : Gap :=
  { connection_handle := 0xFFFF
    state := GapState.GapStateIdle
    conn_rssi := 127
    time_rssi_sample := 0
    enable_adv := true
    connection_params := uninit_params
    config := config }

/-- `EVT_DISCONN_COMPLETE` branch of `SVCCTL_App_Notification`: when the event
handle matches the stored one, zero the handle and go Idle; then (in all
cases) delay 666+666 µs, restart fast advertising when `enable_adv` is set,
and emit `Disconnected`. -/
def handle_disconnection_complete (g : Gap) (evt_handle : Nat) : Gap × List CtlAction :=
  match
    (if evt_handle = g.connection_handle then
      { g with connection_handle := 0, state := GapState.GapStateIdle }
    else g) with
  | g1 =>
    match (if g1.enable_adv then gap_advertise_start g1 GapState.GapStateAdvFast
      else (g1, [])) with
    | (g2, adv_acts) =>
      (g2, [CtlAction.furry_delay_us (666 + 666)] ++ adv_acts ++
        [CtlAction.emit GapEvent.GapEventTypeDisconnected])

/-- `EVT_LE_CONN_UPDATE_COMPLETE` branch: store the event's interval, latency
and supervision timeout, re-verify the parameters, then refresh the RSSI
cache. -/
def handle_connection_update_complete (g : Gap)
    (interval latency timeout : Nat)
    (read_result : Option Int) (tick : Nat) : Gap × List CtlAction :=
  match { g with connection_params :=
      { conn_interval := interval, slave_latency := latency,
        supervisor_timeout := timeout } } with
  | g1 => (fetch_rssi g1 read_result tick, gap_verify_connection_parameters g1)

/-- `EVT_LE_CONN_COMPLETE` branch: store the event's parameters, stop the
advertising timer, go Connected with the event's handle, verify parameters,
refresh the RSSI cache, and request slave security. -/
def handle_connection_complete (g : Gap)
    (conn_handle interval latency timeout : Nat)
    (read_result : Option Int) (tick : Nat) : Gap × List CtlAction :=
  match { g with
      connection_params :=
        { conn_interval := interval, slave_latency := latency,
          supervisor_timeout := timeout },
      state := GapState.GapStateConnected,
      connection_handle := conn_handle } with
  | g2 =>
    (fetch_rssi g2 read_result tick,
      [CtlAction.furry_timer_stop] ++ gap_verify_connection_parameters g2 ++
        [CtlAction.aci_gap_slave_security_req conn_handle])

/-- `EVT_BLUE_GAP_PASS_KEY_REQUEST` branch: `pin = rand() % 999999`, reply
with `aci_gap_pass_key_resp`, emit `PinCodeShow` with the same pin. -/
def handle_pass_key_request (g : Gap) (rand_val : Nat) : Gap × List CtlAction :=
  (g, [CtlAction.aci_gap_pass_key_resp g.connection_handle (rand_val % 999999),
    CtlAction.emit (GapEvent.GapEventTypePinCodeShow (rand_val % 999999))])

/-- `EVT_BLUE_ATT_EXCHANGE_MTU_RESP` branch: emit `UpdateMTU` with
`Server_RX_MTU - 3` (C `int` arithmetic after integral promotion of the
`uint16_t` field). -/
def handle_exchange_mtu_resp (g : Gap) (server_rx_mtu : Nat) : Gap × List CtlAction :=
  (g, [CtlAction.emit (GapEvent.GapEventTypeUpdateMTU ((server_rx_mtu : Int) - 3))])

/-- `gap_get_remote_conn_rssi`: only while Connected, refresh via `fetch_rssi`
(first tick), report the cached RSSI, and return `furry_get_tick() -
time_rssi_sample` (second tick, 32-bit subtraction) when the stamp is nonzero;
in every other case return age 0 and leave the RSSI output unwritten
(`Option.none`). -/
def gap_get_remote_conn_rssi (g : Gap) (read_result : Option Int)
    (tick_sample tick_now : Nat) : Gap × Option Int × Nat :=
  if g.state = GapState.GapStateConnected then
    match fetch_rssi g read_result tick_sample with
    | g1 =>
      (g1, some g1.conn_rssi,
        if g1.time_rssi_sample ≠ 0 then
          (UINT32_MOD + tick_now - g1.time_rssi_sample % UINT32_MOD) % UINT32_MOD
        else 0)
  else (g, none, 0)

/-- Modelled from the spec: I/O capability selectors passed to
`aci_gap_set_io_capability`; the constants live in the BLE stack headers, not
in the sources. -/
inductive IoCapability where
  | IO_CAP_DISPLAY_ONLY
  | IO_CAP_DISPLAY_YES_NO
deriving DecidableEq, Repr

/-- Arguments of the single `aci_gap_set_authentication_requirement` call in
`gap_init_svc`. -/
structure AuthRequirement where
  bonding_mode : Bool
  mitm : Nat
  keypress : Bool
  fixed_pin : Nat
deriving DecidableEq, Repr

/-- The I/O-capability and authentication-requirement portion of
`gap_init_svc`: starting from the configured defaults `CFG_MITM_PROTECTION`
and `CFG_USED_FIXED_PIN` (passed as parameters; their values live outside the
sources) and the config's bonding flag, the pairing method selects the I/O
capability, and `GapPairingNone` overrides MITM, fixed PIN and bonding to off.
Returns the capability handed to `aci_gap_set_io_capability` (none when no
branch fires) and the authentication requirement. -/
def gap_init_svc_auth (cfg_mitm cfg_fixed_pin : Nat) (config : GapConfig) :
    Option IoCapability × AuthRequirement :=
  if config.pairing_method = GapPairing.GapPairingPinCodeShow then
    (some IoCapability.IO_CAP_DISPLAY_ONLY,
      { bonding_mode := config.bonding_mode, mitm := cfg_mitm,
        keypress := false, fixed_pin := cfg_fixed_pin })
  else if config.pairing_method = GapPairing.GapPairingPinCodeVerifyYesNo then
    (some IoCapability.IO_CAP_DISPLAY_YES_NO,
      { bonding_mode := config.bonding_mode, mitm := cfg_mitm,
        keypress := true, fixed_pin := cfg_fixed_pin })
  else if config.pairing_method = GapPairing.GapPairingNone then
    (some IoCapability.IO_CAP_DISPLAY_YES_NO,
      { bonding_mode := false, mitm := 0, keypress := true, fixed_pin := 0 })
  else
    (none,
      { bonding_mode := config.bonding_mode, mitm := cfg_mitm,
        keypress := false, fixed_pin := cfg_fixed_pin })

/-- A concrete configuration used by the closed counterexample and witness
theorems. -/
def example_config : GapConfig :=
  { pairing_method := GapPairing.GapPairingNone
    bonding_mode := true
    conn_param := { conn_int_min := 24, conn_int_max := 24 } }

/-- Concrete stand-in for the uninitialised `malloc` contents of the
connection-parameter fields. -/
def example_uninit_params : GapConnectionParams :=
  { conn_interval := 0, slave_latency := 0, supervisor_timeout := 0 }

/-- A concrete connected `Gap` object: the init state after a
connection-complete event with handle 1 and advertising disabled. -/
def example_connected_gap : Gap :=
  { gap_init example_config example_uninit_params with
      state := GapState.GapStateConnected
      connection_handle := 1
      enable_adv := false }

/-! Claim theorems. -/

/-- C1 counterexample: in the concrete post-init state, which is already Idle,
processing the AdvertiseStop command is not a silent no-op — the
`StopAdvertising` event is still delivered through the application callback,
so something observable happens, contradicting the claim. -/
theorem C1_counterexample :
    (gap_init example_config example_uninit_params).state = GapState.GapStateIdle ∧
    (gap_advertise_stop (gap_init example_config example_uninit_params)).2 =
      [CtlAction.emit GapEvent.GapEventTypeStopAdvertising] ∧
    (gap_advertise_stop (gap_init example_config example_uninit_params)).2 ≠ [] := by
  refine ⟨rfl, rfl, ?_⟩
  decide

/-- C1 (amended): for every state strictly above Idle, AdvertiseStop
transitions to Idle; for Idle and below (Idle, Uninitialized) the state and all
other fields are unchanged and no timer or controller action occurs — but in
every case the `StopAdvertising` event is emitted, so the Idle case is not
fully unobservable. -/
theorem C1_advertise_stop_amended (g : Gap) :
    (GapState.toNat GapState.GapStateIdle < GapState.toNat g.state →
      (gap_advertise_stop g).1.state = GapState.GapStateIdle) ∧
    (¬ GapState.toNat GapState.GapStateIdle < GapState.toNat g.state →
      (gap_advertise_stop g).1 = g ∧
      (gap_advertise_stop g).2 = [CtlAction.emit GapEvent.GapEventTypeStopAdvertising]) := by
  rcases g with ⟨ch, st, rs, ts, ea, cp, cf⟩
  cases st <;> simp [gap_advertise_stop, GapState.toNat]

/-- C1 witness: the amended theorem applied at a concrete connected state and
at the concrete Idle state. -/
theorem C1_witness :
    (gap_advertise_stop example_connected_gap).1.state = GapState.GapStateIdle ∧
    (gap_advertise_stop (gap_init example_config example_uninit_params)).1 =
      gap_init example_config example_uninit_params := by
  exact ⟨(C1_advertise_stop_amended example_connected_gap).1 (by decide),
    ((C1_advertise_stop_amended (gap_init example_config example_uninit_params)).2
      (by decide)).1⟩

/-- C2 counterexample: a connected module whose RSSI read succeeds at tick 5,
queried at the same tick 5, has a recorded sample (timestamp 5 ≠ 0) yet
`gap_get_remote_conn_rssi` returns age 0 — refuting "strictly positive age
once connected and sampled". -/
theorem C2_counterexample :
    example_connected_gap.state = GapState.GapStateConnected ∧
    (gap_get_remote_conn_rssi example_connected_gap (some (-40)) 5 5).1.time_rssi_sample = 5 ∧
    (gap_get_remote_conn_rssi example_connected_gap (some (-40)) 5 5).2.2 = 0 := by
  refine ⟨rfl, rfl, ?_⟩
  simp [gap_get_remote_conn_rssi, fetch_rssi, example_connected_gap, gap_init,
    example_config, example_uninit_params, UINT32_MOD]

/-- C2 (amended): the sample age is 0 whenever the module is not connected, or
whenever the post-refresh sample timestamp is 0 (never sampled); when connected
with a nonzero timestamp, the age equals the elapsed ticks since the sample —
nonnegative, zero when the sample is from the current tick, and strictly
positive only once the tick counter has advanced past the sample. -/
theorem C2_rssi_age_amended (g : Gap) (rr : Option Int) (t1 t2 : Nat)
    (hle : (fetch_rssi g rr t1).time_rssi_sample ≤ t2)
    (h32 : t2 < UINT32_MOD) :
    (g.state ≠ GapState.GapStateConnected →
      (gap_get_remote_conn_rssi g rr t1 t2).2.2 = 0) ∧
    ((fetch_rssi g rr t1).time_rssi_sample = 0 →
      (gap_get_remote_conn_rssi g rr t1 t2).2.2 = 0) ∧
    (g.state = GapState.GapStateConnected →
      (fetch_rssi g rr t1).time_rssi_sample ≠ 0 →
      (gap_get_remote_conn_rssi g rr t1 t2).2.2 =
        t2 - (fetch_rssi g rr t1).time_rssi_sample) := by
  refine ⟨fun hns => by simp [gap_get_remote_conn_rssi, hns], fun hz => ?_, fun hc hnz => ?_⟩
  · by_cases hc : g.state = GapState.GapStateConnected
    · simp [gap_get_remote_conn_rssi, hc, hz]
    · simp [gap_get_remote_conn_rssi, hc]
  · simp only [gap_get_remote_conn_rssi, hc, if_true, ne_eq, hnz, not_false_iff, if_pos]
    simp only [UINT32_MOD] at h32 ⊢
    omega

/-- C2 witness: the amended theorem applied to the concrete connected module
read successfully at tick 5 and queried at tick 7, giving age 2. -/
theorem C2_witness :
    (gap_get_remote_conn_rssi example_connected_gap (some (-40)) 5 7).2.2 = 5 + 2 - 5 := by
  exact ((C2_rssi_age_amended example_connected_gap (some (-40)) 5 7
    (by decide) (by decide)).2.2 rfl (by decide))

/-- C3 counterexample: after `gap_init` the connection-handle field is 0xFFFF,
but after a matching disconnection-complete event it is 0; the two
"no connection" values differ, so there is no single sentinel. -/
theorem C3_counterexample :
    (gap_init example_config example_uninit_params).connection_handle = 0xFFFF ∧
    (handle_disconnection_complete example_connected_gap 1).1.connection_handle = 0 ∧
    (0xFFFF : Nat) ≠ 0 := by
  refine ⟨rfl, ?_, by decide⟩
  decide

/-- C3 (amended): whenever no connection is active, the connection-handle
field holds a fixed no-connection marker, but a different one in each
situation: 0xFFFF right after `gap_init`, and 0 after a disconnection-complete
event whose handle matches the current connection. -/
theorem C3_no_connection_handles_amended (config : GapConfig)
    (up : GapConnectionParams) (g : Gap) (h : Nat)
    (hmatch : h = g.connection_handle) :
    (gap_init config up).connection_handle = 0xFFFF ∧
    (handle_disconnection_complete g h).1.connection_handle = 0 := by
  subst hmatch
  refine ⟨rfl, ?_⟩
  by_cases hadv : g.enable_adv <;>
    simp [handle_disconnection_complete, gap_advertise_start, hadv]

/-- C3 witness: the amended theorem at the concrete connected module and its
own handle. -/
theorem C3_witness :
    (gap_init example_config example_uninit_params).connection_handle = 0xFFFF ∧
    (handle_disconnection_complete example_connected_gap
      example_connected_gap.connection_handle).1.connection_handle = 0 := by
  exact C3_no_connection_handles_amended example_config example_uninit_params
    example_connected_gap example_connected_gap.connection_handle rfl

/-- C4: on every pass-key request, the generated PIN `rand() % 999999` fits in
six decimal digits (it lies in 0..999999), the controller reply
`aci_gap_pass_key_resp` carries it, and the emitted `PinCodeShow` event carries
exactly the same value. -/
theorem C4_pass_key_pin (g : Gap) (rand_val : Nat) :
    ∃ pin, pin ≤ 999999 ∧
      (handle_pass_key_request g rand_val).2 =
        [CtlAction.aci_gap_pass_key_resp g.connection_handle pin,
          CtlAction.emit (GapEvent.GapEventTypePinCodeShow pin)] := by
  exact ⟨rand_val % 999999,
    le_of_lt (lt_of_lt_of_le (Nat.mod_lt rand_val (by decide)) (by decide)), rfl⟩

/-- C5: starting fast advertising always ends with arming the advertising
timer; the timer callback posts `AdvertiseLowPower`; and processing that
command while still in `AdvertisingFast` moves the state to
`AdvertisingLowPower` — in particular never to `Connected` or `Idle`. -/
theorem C5_fast_adv_timer (g : Gap) (hfast : g.state = GapState.GapStateAdvFast) :
    CtlAction.furry_timer_start INITIAL_ADV_TIMEOUT ∈
      (gap_advertise_start g GapState.GapStateAdvFast).2 ∧
    gap_advetise_timer_callback = [CtlAction.queue_put GapCommand.GapCommandAdvLowPower] ∧
    (gap_app_step g GapCommand.GapCommandAdvLowPower).1.state =
      GapState.GapStateAdvLowPower ∧
    (gap_app_step g GapCommand.GapCommandAdvLowPower).1.state ≠
      GapState.GapStateConnected ∧
    (gap_app_step g GapCommand.GapCommandAdvLowPower).1.state ≠
      GapState.GapStateIdle := by
  refine ⟨?_, rfl, ?_, ?_, ?_⟩ <;>
    simp [gap_advertise_start, gap_app_step, gap_advetise_timer_callback, hfast]

/-- C5 witness: the theorem at a concrete `Gap` in the fast-advertising
state. -/
theorem C5_witness :
    (gap_app_step { gap_init example_config example_uninit_params with
        state := GapState.GapStateAdvFast } GapCommand.GapCommandAdvLowPower).1.state =
      GapState.GapStateAdvLowPower := by
  exact (C5_fast_adv_timer { gap_init example_config example_uninit_params with
    state := GapState.GapStateAdvFast } rfl).2.2.1

/-- C6: on a disconnection-complete event for the current handle with
`enable_adv` still set, the handler first performs the fixed 1332 µs settle
delay, restarts advertising with the fast interval bounds (0x80..0xa0, i.e.
`AdvertisingFast`, not low power), leaves the module in state
`AdvertisingFast`, and emits `Disconnected`. -/
theorem C6_disconnect_restart (g : Gap) (hadv : g.enable_adv = true) :
    (handle_disconnection_complete g g.connection_handle).1.state =
      GapState.GapStateAdvFast ∧
    (handle_disconnection_complete g g.connection_handle).2.head? =
      some (CtlAction.furry_delay_us (666 + 666)) ∧
    CtlAction.aci_gap_set_discoverable 0x80 0xa0 ∈
      (handle_disconnection_complete g g.connection_handle).2 ∧
    CtlAction.emit GapEvent.GapEventTypeDisconnected ∈
      (handle_disconnection_complete g g.connection_handle).2 := by
  refine ⟨?_, ?_, ?_, ?_⟩ <;>
    simp [handle_disconnection_complete, gap_advertise_start, hadv]

/-- C6 witness: the theorem at a concrete connected module with advertising
left enabled. -/
theorem C6_witness :
    (handle_disconnection_complete
      { example_connected_gap with enable_adv := true }
      { example_connected_gap with enable_adv := true }.connection_handle).1.state =
      GapState.GapStateAdvFast := by
  exact (C6_disconnect_restart { example_connected_gap with enable_adv := true } rfl).1

/-- C7: with pairing method `None`, `gap_init_svc` selects the display+yes/no
I/O capability and configures the authentication requirement with bonding off,
MITM off and fixed PIN off, whatever the config's bonding flag and the
configured defaults were. -/
theorem C7_pairing_none_auth (cfg_mitm cfg_fixed_pin : Nat) (config : GapConfig)
    (hnone : config.pairing_method = GapPairing.GapPairingNone) :
    (gap_init_svc_auth cfg_mitm cfg_fixed_pin config).1 =
      some IoCapability.IO_CAP_DISPLAY_YES_NO ∧
    (gap_init_svc_auth cfg_mitm cfg_fixed_pin config).2.bonding_mode = false ∧
    (gap_init_svc_auth cfg_mitm cfg_fixed_pin config).2.mitm = 0 ∧
    (gap_init_svc_auth cfg_mitm cfg_fixed_pin config).2.fixed_pin = 0 := by
  simp [gap_init_svc_auth, hnone]

/-- C7 witness: the theorem at the concrete example config, whose requested
bonding flag is true yet bonding comes out disabled. -/
theorem C7_witness :
    example_config.bonding_mode = true ∧
    (gap_init_svc_auth 1 1 example_config).2.bonding_mode = false := by
  exact ⟨rfl, (C7_pairing_none_auth 1 1 example_config rfl).2.1⟩

/-- C8: both the connection-complete and connection-update-complete handlers
run `gap_verify_connection_parameters` on the freshly stored parameters, which
issues an L2CAP parameter-update request if and only if the negotiated
interval lies outside the configured range [min, max]; the request carries the
configured min/max with the current slave latency and supervision timeout; and
since a failed request is only logged, the stored parameters after each
handler are exactly the event's values, unaffected by the request. -/
theorem C8_param_update (g : Gap) (i l t ch : Nat) (rr : Option Int) (tk : Nat) :
    ((handle_connection_update_complete g i l t rr tk).2 =
      gap_verify_connection_parameters
        { g with connection_params :=
            { conn_interval := i, slave_latency := l, supervisor_timeout := t } }) ∧
    ((handle_connection_update_complete g i l t rr tk).1.connection_params =
      { conn_interval := i, slave_latency := l, supervisor_timeout := t }) ∧
    ((handle_connection_complete g ch i l t rr tk).2 =
      [CtlAction.furry_timer_stop] ++
        gap_verify_connection_parameters
          { g with
              connection_params :=
                { conn_interval := i, slave_latency := l, supervisor_timeout := t },
              state := GapState.GapStateConnected,
              connection_handle := ch } ++
        [CtlAction.aci_gap_slave_security_req ch]) ∧
    ((handle_connection_complete g ch i l t rr tk).1.connection_params =
      { conn_interval := i, slave_latency := l, supervisor_timeout := t }) ∧
    (gap_verify_connection_parameters g ≠ [] ↔
      ¬(g.config.conn_param.conn_int_min ≤ g.connection_params.conn_interval ∧
        g.connection_params.conn_interval ≤ g.config.conn_param.conn_int_max)) ∧
    (∀ a ∈ gap_verify_connection_parameters g,
      a = CtlAction.aci_l2cap_connection_parameter_update_req
        g.connection_handle
        g.config.conn_param.conn_int_min
        g.config.conn_param.conn_int_max
        g.connection_params.slave_latency
        g.connection_params.supervisor_timeout) := by
  refine ⟨rfl, ?_, rfl, ?_, ?_, ?_⟩
  · cases rr <;> rfl
  · cases rr <;> rfl
  · by_cases hout : g.config.conn_param.conn_int_min > g.connection_params.conn_interval ∨
        g.config.conn_param.conn_int_max < g.connection_params.conn_interval
    · simp only [gap_verify_connection_parameters, if_pos hout]
      simp only [ne_eq, List.cons_ne_nil, not_false_iff, true_iff]
      omega
    · simp only [gap_verify_connection_parameters, if_neg hout]
      simp only [ne_eq, not_true, false_iff, not_not]
      omega
  · intro a ha
    unfold gap_verify_connection_parameters at ha
    split at ha
    · simpa using ha
    · simp at ha

/-- C8 witness: in the concrete connected module the stored interval 0 lies
outside the configured range 24..24, so the verification routine does issue a
request. -/
theorem C8_witness :
    gap_verify_connection_parameters example_connected_gap ≠ [] := by
  exact (C8_param_update example_connected_gap 0 0 0 0 Option.none 0).2.2.2.2.1.mpr
    (by decide)

/-- C9: for an ATT MTU exchange response with reported MTU at least 3, the
emitted `MtuNegotiated` payload size equals the reported MTU minus 3. -/
theorem C9_mtu_minus_3 (g : Gap) (mtu : Nat) (h : 3 ≤ mtu) :
    (handle_exchange_mtu_resp g mtu).2 =
      [CtlAction.emit (GapEvent.GapEventTypeUpdateMTU ((mtu - 3 : Nat) : Int))] := by
  simp [handle_exchange_mtu_resp, Nat.cast_sub h]

/-- C9 witness: the theorem at the concrete module with reported MTU 23,
yielding payload size 20. -/
theorem C9_witness :
    (handle_exchange_mtu_resp example_connected_gap 23).2 =
      [CtlAction.emit (GapEvent.GapEventTypeUpdateMTU 20)] := by
  simpa using C9_mtu_minus_3 example_connected_gap 23 (by decide)

/-- C10: `gap_start_advertising` outside Idle and `gap_stop_advertising` in
Idle are complete no-ops — the returned object equals the input in every field
and no command (nor any other action) is produced. -/
theorem C10_guarded_noops (g : Gap) :
    (g.state ≠ GapState.GapStateIdle → gap_start_advertising g = (g, [])) ∧
    (g.state = GapState.GapStateIdle → gap_stop_advertising g = (g, [])) := by
  constructor
  · intro h
    simp [gap_start_advertising, h]
  · intro h
    simp [gap_stop_advertising, h, GapState.toNat]

/-- C10 witness: the theorem applied at the concrete connected module (start
request ignored) and at the concrete post-init Idle module (stop request
ignored). -/
theorem C10_witness :
    gap_start_advertising example_connected_gap = (example_connected_gap, []) ∧
    gap_stop_advertising (gap_init example_config example_uninit_params) =
      (gap_init example_config example_uninit_params, []) := by
  exact ⟨(C10_guarded_noops example_connected_gap).1 (by decide),
    (C10_guarded_noops (gap_init example_config example_uninit_params)).2 rfl⟩
